import Mathlib

/-!
Formal model of the MoltDAO governance client (`src/moltdao.js`).

The client is a thin wrapper over a JSON-RPC ledger: every public operation
issues remote reads (and at most one write) against a fixed set of contracts.
We embed the remote ledger as a `Chain` record of response functions
(`Except String` results model a call that either answers or throws with a
message), and each client operation as a pure Lean function of the client
state (`Skill`) and the chain.  Write operations additionally return the list
of remote calls they issued (`RpcCall`), so that "no transaction was
submitted" is the statement that the trace contains no write call.
State effects of writes on the chain are not modelled: every claim under
study concerns the behaviour up to and including submission.

The two numeric helpers of the ethers library that the code calls,
`parseUnits` and `formatUnits`, are embedded from the library's fixed-point
semantics (ethers v6 `FixedNumber`): `parseUnits` parses a nonnegative
decimal string at a given precision (the client only ever passes nonnegative
amounts), and `formatUnits` renders an integer at a given precision, padding
the fraction and then trimming trailing zeros while always keeping at least
one fractional digit.
-/

/-- Contract address table of a network (`NETWORKS[...].contracts`).
The secondary stable asset (`usdc`) is optional: not every network defines
one. -/
structure Contracts where
  token : String
  splitter : String
  governance : String
  usdc : Option String
deriving DecidableEq

/-- One entry of the `NETWORKS` configuration table. -/
structure NetworkConfig where
  chainId : Nat
  name : String
  rpc : String
  explorer : String
  contracts : Contracts
deriving DecidableEq

/-- The `testnet` entry of `NETWORKS` in `src/moltdao.js`. -/
def testnetConfig : NetworkConfig :=
  { chainId := 84532
    name := "Base Sepolia"
    rpc := "https://sepolia.base.org"
    explorer := "https://sepolia.basescan.org"
    contracts :=
      { token := "0x036CbD53842c5426634e7929541eC2318f3dCF7e"
        splitter := "0xcf9933743D2312ea1383574907cF1A9c6fE4808d"
        governance := "0xa5070Da0d76F1872D1c112D6e71f3666598314DF"
        usdc := some "0x036CbD53842c5426634e7929541eC2318f3dCF7e" } }

/-- The closed `NETWORKS` table: `testnet` is its only key. -/
def NETWORKS (network : String) : Option NetworkConfig :=
  if network = "testnet" then some testnetConfig else none

/-- A signing credential, as derived by the wallet library from a private
key: only its presence and its derived address matter to the client. -/
structure Wallet where
  address : String
deriving DecidableEq

/-- The constructed client (`MoltDAOSkill` instance): resolved network name,
optional wallet, the resolved contract table and explorer base URL. -/
structure Skill where
  network : String
  wallet : Option Wallet
  contracts : Contracts
  explorer : String
deriving DecidableEq

/-- Constructor input.  `network` models `config.network` (`none` = absent);
`privateKey` models `config.privateKey || process.env.MOLTDAO_PRIVATE_KEY`
(`none` = neither given). -/
structure Config where
  network : Option String
  privateKey : Option String
deriving DecidableEq

/-- Key-to-address derivation of the wallet library, kept abstract as an
injection into address strings: no claim depends on actual key arithmetic. -/
def addressOfKey (key : String) : String := "0x" ++ key

/-- The `MoltDAOSkill` constructor.  Mirrors the JavaScript truthiness tests:
`config.network || 'testnet'` treats an absent or empty selector as unset,
and `if (this.privateKey)` treats an empty key string as no key.  An unknown
network name leaves `NETWORKS[network]` undefined, so the immediately
following read of `networkConfig.rpc` throws a `TypeError` before the RPC
provider is ever created; the `List String` component is the trace of
connection handles established (empty in the error case). -/
def construct (config : Config) : Except String Skill × List String :=
  let network :=
    match config.network with
    | none => "testnet"
    | some s => if s = "" then "testnet" else s
  let privateKey :=
    match config.privateKey with
    | none => none
    | some k => if k = "" then none else some k
  match NETWORKS network with
  | none => (.error "TypeError: Cannot read properties of undefined (reading rpc)", [])
  | some networkConfig =>
    (.ok { network := network
           wallet := privateKey.map (fun k => { address := addressOfKey k })
           contracts := networkConfig.contracts
           explorer := networkConfig.explorer },
     ["connect " ++ networkConfig.rpc])

/-- Decimal digits of a character list, most significant first
(`BigInt(digits)` on an all-digit string). -/
def digitsToNat (digits : List Char) : Nat :=
  digits.foldl (fun n c => 10 * n + (c.toNat - 48)) 0

/-- Trailing-zero trimming of a fraction rendering, keeping at least one
digit (ethers `FixedNumber.toString` trims while the last character is `0`
and the one before it is not the decimal point). -/
def trimFrac (frac : List Char) : List Char :=
  let t := (frac.reverse.dropWhile (fun c => c = '0')).reverse
  if t = [] then ['0'] else t

/-- Leading zero padding of a digit string out to at least `decimals + 1`
characters, so that at least one whole digit remains once the point is
inserted (ethers pads while `str.length <= decimals`). -/
def padZeros (digits : List Char) (decimals : Nat) : List Char :=
  if digits.length ≤ decimals then
    List.replicate (decimals + 1 - digits.length) '0' ++ digits
  else digits

/-- ethers `formatUnits(value, decimals)` for a nonnegative value: render the
integer, pad, insert the decimal point `decimals` places from the right, and
trim trailing fractional zeros keeping at least one. -/
def formatUnits (val : Nat) (decimals : Nat) : String :=
  if decimals = 0 then toString val
  else
    let digits := padZeros (toString val).toList decimals
    let whole := digits.take (digits.length - decimals)
    let frac := digits.drop (digits.length - decimals)
    String.mk (whole ++ '.' :: trimFrac frac)

/-- ethers `parseUnits(value, decimals)` for a nonnegative decimal string
(`FixedNumber.fromString`): an all-digit whole part, optionally a point and
an all-digit fraction, at least one digit overall; the fraction is padded to
`decimals` digits, and digits beyond `decimals` must all be zero ("too many
decimals" otherwise).  `none` models the thrown parse error. -/
def parseUnits (value : String) (decimals : Nat) : Option Nat :=
  let cs := value.toList
  let whole := cs.takeWhile Char.isDigit
  let rest := cs.dropWhile Char.isDigit
  match rest with
  | [] =>
    if whole = [] then none
    else some (digitsToNat whole * 10 ^ decimals)
  | '.' :: frac =>
    if frac.all Char.isDigit && decide (0 < whole.length + frac.length) then
      if (frac.drop decimals).all (fun c => c = '0') then
        some (digitsToNat whole * 10 ^ decimals +
              digitsToNat ((frac ++ List.replicate decimals '0').take decimals))
      else none
    else none
  | _ => none

/-- The raw tuple returned by the governance contract's `getProposal`. -/
structure ProposalData where
  id : Nat
  title : String
  description : String
  startTime : Nat
  endTime : Nat
  yesVotes : Nat
  noVotes : Nat
  cancelled : Bool
  status : Nat
deriving DecidableEq

/-- The tuple returned by the governance contract's `getProposalResult`. -/
structure ResultData where
  ended : Bool
  passed : Bool
  yesVotes : Nat
  noVotes : Nat
  totalVotes : Nat
deriving DecidableEq

/-- The remote ledger, as the client observes it: one governance contract
(the one at the configured governance address) plus the ERC-20 read and
write surface, keyed by contract address where the client talks to more than
one token contract.  An `Except.error` response models a call that throws
with that message. -/
structure Chain where
  proposalCount : Nat
  getProposal : Nat → Except String ProposalData
  getProposalResult : Nat → Except String ResultData
  isProposalActive : Nat → Except String Bool
  hasUserVoted : Nat → String → Except String Bool
  getVotingPower : String → Except String Nat
  voteTx : Nat → Bool → Except String String
  createProposalTx : String → String → Except String String
  symbolOf : String → Except String String
  decimalsOf : String → Except String Nat
  balanceOf : String → String → Except String Nat
  transferTx : String → String → Nat → Except String String

/-- The status label table of `getProposals`:
`['Pending', 'Active', 'Ended', 'Cancelled']`. -/
def statusLabels : List String := ["Pending", "Active", "Ended", "Cancelled"]

/-- JavaScript array indexing `['Pending','Active','Ended','Cancelled'][s]`:
in range it selects the positional label, out of range it is `undefined`
(here `none`) — no exception is thrown. -/
def statusLabel (s : Nat) : Option String := statusLabels[s]?

/-- One decoded proposal as pushed by `getProposals`.  Times are the
millisecond arguments passed to `new Date(...)`; vote tallies are formatted
at 18 decimals; `status` is the (possibly undefined) label. -/
structure ProposalView where
  id : Nat
  title : String
  description : String
  startTimeMs : Nat
  endTimeMs : Nat
  yesVotes : String
  noVotes : String
  cancelled : Bool
  status : Option String
  isActive : Bool
  passed : Bool
  totalVotes : String
deriving DecidableEq

/-- The body of one iteration of the `getProposals` loop: the three remote
reads in source order, each propagating its failure, then the record pushed
on success. -/
def fetchProposal (c : Chain) (i : Nat) : Except String ProposalView :=
  match c.getProposal i with
  | .error e => .error e
  | .ok p =>
    match c.getProposalResult i with
    | .error e => .error e
    | .ok result =>
      match c.isProposalActive i with
      | .error e => .error e
      | .ok isActive =>
        .ok { id := p.id
              title := p.title
              description := p.description
              startTimeMs := p.startTime * 1000
              endTimeMs := p.endTime * 1000
              yesVotes := formatUnits p.yesVotes 18
              noVotes := formatUnits p.noVotes 18
              cancelled := p.cancelled
              status := statusLabel p.status
              isActive := isActive
              passed := result.passed
              totalVotes := formatUnits result.totalVotes 18 }

/-- The `getProposals` loop from index `i`, running `fuel` more iterations:
a successful fetch is appended to the result list, a failed fetch is
appended to the error log (`console.error` for that id) and the loop
continues. -/
def getProposalsFrom (c : Chain) : Nat → Nat → List ProposalView × List (Nat × String)
  | _, 0 => ([], [])
  | i, n + 1 =>
    let rest := getProposalsFrom c (i + 1) n
    match fetchProposal c i with
    | .ok v => (v :: rest.1, rest.2)
    | .error e => (rest.1, (i, e) :: rest.2)

/-- `getProposals`: iterate ids `1..proposalCount` and return the pushed
proposals. -/
def getProposals (c : Chain) : List ProposalView :=
  (getProposalsFrom c 1 c.proposalCount).1

/-- The error log produced by the same `getProposals` call: one
`(id, message)` entry per failed fetch. -/
def getProposalsErrors (c : Chain) : List (Nat × String) :=
  (getProposalsFrom c 1 c.proposalCount).2

/-- `getVotingPower(address)`: single read, formatted at 18 decimals plus
the raw weight. -/
structure VotingPowerView where
  address : String
  votingPower : String
  raw : String
deriving DecidableEq

/-- The client's `getVotingPower` read operation (credential-free: its
inputs contain no wallet). -/
def getVotingPowerOp (c : Chain) (address : String) : Except String VotingPowerView :=
  match c.getVotingPower address with
  | .error e => .error e
  | .ok power =>
    .ok { address := address, votingPower := formatUnits power 18, raw := toString power }

/-- The client's `hasVoted` read operation (credential-free). -/
def hasVotedOp (c : Chain) (proposalId : Nat) (address : String) : Except String Bool :=
  c.hasUserVoted proposalId address

/-- A remote call issued by a write operation: a read, or a write
transaction with its arguments rendered as strings. -/
inductive RpcCall where
  | read (method : String)
  | write (method : String) (args : List String)
deriving DecidableEq

/-- Whether a call is a write transaction. -/
def RpcCall.isWrite : RpcCall → Bool
  | .read _ => false
  | .write _ _ => true

/-- Number of write transactions in a call trace. -/
def writeCount (trace : List RpcCall) : Nat :=
  (trace.filter RpcCall.isWrite).length

/-- Error of `vote` when no wallet is configured. -/
def noKeyMsg : String :=
  "No private key configured. Set MOLTDAO_PRIVATE_KEY environment variable."

/-- Error of `vote` when the proposal is not active. -/
def notActiveMsg (proposalId : Nat) : String :=
  "Proposal " ++ (toString proposalId ++ " is not active for voting")

/-- Error of `vote` when the signer has already voted. -/
def alreadyVotedMsg (proposalId : Nat) : String :=
  "Already voted on proposal " ++ toString proposalId

/-- Error of `vote` when the signer's voting power is zero. -/
def noPowerMsg : String :=
  "No voting power. You need USDC tokens to vote."

/-- Result record of a successful `vote`. -/
structure VoteResult where
  success : Bool
  proposalId : Nat
  support : String
  votingPower : String
  txHash : String
  explorer : String
deriving DecidableEq

/-- `vote(proposalId, support)`: wallet guard, then the three remote-read
guards in source order, each short-circuiting with its own error; only after
all pass is the write transaction issued.  The trace records every remote
call in order. -/
def vote (s : Skill) (c : Chain) (proposalId : Nat) (support : Bool) :
    Except String VoteResult × List RpcCall :=
  match s.wallet with
  | none => (.error noKeyMsg, [])
  | some w =>
    match c.isProposalActive proposalId with
    | .error e => (.error e, [.read "isProposalActive"])
    | .ok isActive =>
      if !isActive then
        (.error (notActiveMsg proposalId), [.read "isProposalActive"])
      else
        match c.hasUserVoted proposalId w.address with
        | .error e => (.error e, [.read "isProposalActive", .read "hasUserVoted"])
        | .ok hasVoted =>
          if hasVoted then
            (.error (alreadyVotedMsg proposalId),
             [.read "isProposalActive", .read "hasUserVoted"])
          else
            match c.getVotingPower w.address with
            | .error e =>
              (.error e,
               [.read "isProposalActive", .read "hasUserVoted", .read "getVotingPower"])
            | .ok power =>
              if power = 0 then
                (.error noPowerMsg,
                 [.read "isProposalActive", .read "hasUserVoted", .read "getVotingPower"])
              else
                match c.voteTx proposalId support with
                | .error e =>
                  (.error e,
                   [.read "isProposalActive", .read "hasUserVoted",
                    .read "getVotingPower",
                    .write "vote" [toString proposalId, toString support]])
                | .ok txHash =>
                  (.ok { success := true
                         proposalId := proposalId
                         support := if support then "FOR" else "AGAINST"
                         votingPower := formatUnits power 18
                         txHash := txHash
                         explorer := s.explorer ++ "/tx/" ++ txHash },
                   [.read "isProposalActive", .read "hasUserVoted",
                    .read "getVotingPower",
                    .write "vote" [toString proposalId, toString support]])

/-- Result record of a successful `donateUSDC`.  `toAddress` is the field
named `to` in the source (a reserved word here). -/
structure DonateResult where
  success : Bool
  amount : String
  toAddress : String
  txHash : String
  explorer : String
deriving DecidableEq

/-- `donateUSDC(amount)`: testnet guard, wallet guard, then the amount is
converted at the fixed precision 6 and transferred to the governance
address.  `amount` is the string the code passes to `parseUnits`
(`amount.toString()`); a parse failure throws before any remote call, as
does an undefined stable-asset address handed to the contract wrapper. -/
def donateUSDC (s : Skill) (c : Chain) (amount : String) :
    Except String DonateResult × List RpcCall :=
  if s.network ≠ "testnet" then
    (.error "USDC donation only available on testnet", [])
  else
    match s.wallet with
    | none => (.error "No private key configured", [])
    | some _ =>
      match s.contracts.usdc with
      | none => (.error "invalid contract address", [])
      | some usdcAddr =>
        match parseUnits amount 6 with
        | none => (.error "invalid FixedNumber string value", [])
        | some amountWei =>
          match c.transferTx usdcAddr s.contracts.governance amountWei with
          | .error e =>
            (.error e,
             [.write "transfer" [s.contracts.governance, toString amountWei]])
          | .ok txHash =>
            (.ok { success := true
                   amount := amount ++ " USDC"
                   toAddress := s.contracts.governance
                   txHash := txHash
                   explorer := s.explorer ++ "/tx/" ++ txHash },
             [.write "transfer" [s.contracts.governance, toString amountWei]])

/-- Result record of a successful `createProposal`. -/
structure CreateResult where
  success : Bool
  proposalId : Nat
  title : String
  txHash : String
  explorer : String
deriving DecidableEq

/-- `createProposal(title, description)`: wallet guard, then the write
transaction, then a `proposalCount` re-read to report the new id (the chain
snapshot is not advanced by the write, so the re-read reports the snapshot's
count; the claims under study concern only the pre-submission guard). -/
def createProposal (s : Skill) (c : Chain) (title description : String) :
    Except String CreateResult × List RpcCall :=
  match s.wallet with
  | none => (.error "No private key configured", [])
  | some _ =>
    match c.createProposalTx title description with
    | .error e => (.error e, [.write "createProposal" [title, description]])
    | .ok txHash =>
      (.ok { success := true
             proposalId := c.proposalCount
             title := title
             txHash := txHash
             explorer := s.explorer ++ "/tx/" ++ txHash },
       [.write "createProposal" [title, description], .read "proposalCount"])

/-- Primary token fields of a treasury snapshot. -/
structure TokenInfo where
  address : String
  symbol : String
  splitterBalance : String
deriving DecidableEq

/-- Secondary stable-asset field of a treasury snapshot: either the
formatted balance, or the field-level error object `\x7b error: ... \x7d`. -/
inductive UsdcInfo where
  | balance (address : String) (balance : String)
  | failure (error : String)
deriving DecidableEq

/-- A treasury snapshot: primary token fields always present, the secondary
field only on a network that defines the stable asset. -/
structure TreasurySnapshot where
  token : TokenInfo
  usdc : Option UsdcInfo
deriving DecidableEq

/-- `getTreasury()`: the three primary reads (joined via `Promise.all`; a
failure of any of them fails the whole call, modelled in source order), the
token record formatted at the fetched decimals, then — only on testnet with
a stable-asset address configured — the guarded secondary read whose failure
is captured as a field-level error object, and whose balance is formatted at
the hard-coded precision 6. -/
def getTreasury (s : Skill) (c : Chain) : Except String TreasurySnapshot :=
  match c.symbolOf s.contracts.token with
  | .error e => .error e
  | .ok symbol =>
    match c.decimalsOf s.contracts.token with
    | .error e => .error e
    | .ok decimals =>
      match c.balanceOf s.contracts.token s.contracts.splitter with
      | .error e => .error e
      | .ok splitterBalance =>
        let tokenInfo : TokenInfo :=
          { address := s.contracts.token
            symbol := symbol
            splitterBalance := formatUnits splitterBalance decimals }
        if s.network = "testnet" then
          match s.contracts.usdc with
          | some usdcAddr =>
            match c.balanceOf usdcAddr s.contracts.governance with
            | .ok usdcBalance =>
              .ok { token := tokenInfo
                    usdc := some (UsdcInfo.balance usdcAddr (formatUnits usdcBalance 6)) }
            | .error e =>
              .ok { token := tokenInfo, usdc := some (UsdcInfo.failure e) }
          | none => .ok { token := tokenInfo, usdc := none }
        else .ok { token := tokenInfo, usdc := none }

/-- A sample in-range proposal record with id equal to its fetch index. -/
def okProposal (i : Nat) : ProposalData :=
  { id := i, title := "T", description := "D", startTime := 0, endTime := 10
    yesVotes := 0, noVotes := 0, cancelled := false, status := 1 }

/-- A benign chain: no proposals, every read answers, activity holds, the
signer has power 5. -/
def baseChain : Chain :=
  { proposalCount := 0
    getProposal := fun i => .ok (okProposal i)
    getProposalResult := fun _ =>
      .ok { ended := false, passed := false, yesVotes := 0, noVotes := 0, totalVotes := 0 }
    isProposalActive := fun _ => .ok true
    hasUserVoted := fun _ _ => .ok false
    getVotingPower := fun _ => .ok 5
    voteTx := fun _ _ => .ok "0xabc"
    createProposalTx := fun _ _ => .ok "0xdef"
    symbolOf := fun _ => .ok "USDC"
    decimalsOf := fun _ => .ok 6
    balanceOf := fun _ _ => .ok 1234
    transferTx := fun _ _ _ => .ok "0x123" }

/-- A client constructed on the testnet configuration with a signer. -/
def testSkill : Skill :=
  { network := "testnet", wallet := some { address := "0xagent" }
    contracts := testnetConfig.contracts, explorer := testnetConfig.explorer }

/-- The same client without a signing credential. -/
def skillNoKey : Skill := { testSkill with wallet := none }

/-- Chain variant whose only proposal carries the out-of-range status 4. -/
def c1Chain : Chain :=
  { baseChain with
    proposalCount := 1
    getProposal := fun i => .ok { okProposal i with status := 4 } }

/-- Claim C1 (code bug): positions 0 to 3 decode to the four labels in
positional order, but an out-of-range status code does not raise a
data-integrity error: JavaScript array indexing yields `undefined`, so a
chain whose only proposal reports status 4 produces a proposal whose status
field is undefined (`none`), which is returned silently with an empty error
log. -/
theorem c1_statusDecoding :
    statusLabel 0 = some "Pending" ∧ statusLabel 1 = some "Active" ∧
    statusLabel 2 = some "Ended" ∧ statusLabel 3 = some "Cancelled" ∧
    statusLabel 4 = none ∧ statusLabel 5 = none ∧
    (getProposals c1Chain).map (fun v => v.status) = [none] ∧
    getProposalsErrors c1Chain = [] := by
  decide

/-- Claim C9: `getProposals` against a contract reporting a proposal count
of 0 returns the empty sequence and logs no error. -/
theorem c9_emptyEnumeration (c : Chain) (h : c.proposalCount = 0) :
    getProposals c = [] ∧ getProposalsErrors c = [] := by
  unfold getProposals getProposalsErrors
  rw [h]
  exact ⟨rfl, rfl⟩

/-- Witness for C9: the benign chain reports count 0. -/
theorem c9_emptyEnumeration_witness :
    getProposals baseChain = [] ∧ getProposalsErrors baseChain = [] :=
  c9_emptyEnumeration baseChain rfl

/-- Claim C8 counterexample: the empty-string selector is outside the
closed network set (`NETWORKS` does not know it), yet construction succeeds
and proceeds to connect, because the JavaScript truthiness fallback treats
the empty string like an absent selector. -/
theorem c8_emptySelector :
    NETWORKS "" = none ∧
    (construct { network := some "", privateKey := none }).1 =
      .ok { network := "testnet", wallet := none
            contracts := testnetConfig.contracts, explorer := testnetConfig.explorer } ∧
    (construct { network := some "", privateKey := none }).2 =
      ["connect " ++ testnetConfig.rpc] := by
  exact ⟨rfl, rfl, rfl⟩

/-- Claim C8 (amended): every nonempty network selector outside the closed
set fails construction immediately — reading `rpc` off the undefined table
entry throws — with no connection attempt. -/
theorem c8_unknownSelector (n : String) (pk : Option String)
    (hne : n ≠ "") (hn : NETWORKS n = none) :
    construct { network := some n, privateKey := pk } =
      (.error "TypeError: Cannot read properties of undefined (reading rpc)", []) := by
  unfold construct
  simp only [hne, if_false, if_neg hne]
  rw [hn]

/-- Witness for the amended C8 at the selector "mainnet". -/
theorem c8_unknownSelector_witness :
    construct { network := some "mainnet", privateKey := none } =
      (.error "TypeError: Cannot read properties of undefined (reading rpc)", []) :=
  c8_unknownSelector "mainnet" none (by decide) (by decide)

/-- Claim C5 counterexample: converting the amount string "10" at precision
6 gives exactly 10000000 base units, but formatting those units back at the
same precision renders "10.0" — the library keeps one fractional digit —
and not the bare string "10". -/
theorem c5_roundTripString :
    parseUnits "10" 6 = some 10000000 ∧
    formatUnits 10000000 6 = "10.0" ∧ formatUnits 10000000 6 ≠ "10" := by
  decide

/-- Decimal rendering of the donation example amount. -/
theorem toStringTenMillion : toString (10000000 : Nat) = "10000000" := by decide

/-- Claim C5 (amended): `donateUSDC` with amount "10" converts at the fixed
precision 6 to exactly 10000000 base units and submits a transfer of that
amount to the governance address; converting 10000000 back at precision 6
yields "10.0", the decimal rendering of ten, rather than the string
"10". -/
theorem c5_conversion (s : Skill) (c : Chain) (w : Wallet) (a : String)
    (hn : s.network = "testnet") (hw : s.wallet = some w)
    (ha : s.contracts.usdc = some a) :
    parseUnits "10" 6 = some 10000000 ∧
    (donateUSDC s c "10").2 =
      [RpcCall.write "transfer" [s.contracts.governance, "10000000"]] ∧
    formatUnits 10000000 6 = "10.0" := by
  refine ⟨by decide, ?_, by decide⟩
  have hp : parseUnits "10" 6 = some 10000000 := by decide
  unfold donateUSDC
  rw [hn]
  simp only [ne_eq, not_true_eq_false, if_false, hw, ha, hp, toStringTenMillion]
  cases h : c.transferTx a s.contracts.governance 10000000 <;> simp [h]

/-- Strings whose first characters differ are different strings. -/
theorem strNeOfHead {s t : String} (h : s.data.head? ≠ t.data.head?) : s ≠ t :=
  fun he => h (by rw [he])

/-- The not-active error always starts with the letter P. -/
theorem notActiveMsgHead (pid : Nat) : (notActiveMsg pid).data.head? = some 'P' := by
  unfold notActiveMsg
  rw [String.data_append]
  rfl

/-- The already-voted error always starts with the letter A. -/
theorem alreadyVotedMsgHead (pid : Nat) : (alreadyVotedMsg pid).data.head? = some 'A' := by
  unfold alreadyVotedMsg
  rw [String.data_append]
  rfl

/-- Chain variant on which proposals are reported inactive. -/
def notActiveChain : Chain :=
  { baseChain with isProposalActive := fun _ => .ok false }

/-- Chain variant on which the signer has already voted. -/
def votedChain : Chain :=
  { baseChain with hasUserVoted := fun _ _ => .ok true }

/-- Chain variant on which the signer's voting power is zero. -/
def zeroPowerChain : Chain :=
  { baseChain with getVotingPower := fun _ => .ok 0 }

/-- Claim C2: `vote` evaluates its guards in source order — signer
configured, proposal active, not already voted, nonzero power — each failing
guard short-circuits with its own error, the four errors are pairwise
distinct, and every guard failure leaves a read-only trace with zero write
calls (the trace also shows that later guard reads are not issued). -/
theorem c2_voteGuardOrder (s : Skill) (c : Chain) (pid : Nat) (support : Bool) :
    (s.wallet = none →
      vote s c pid support = (.error noKeyMsg, []) ∧
      writeCount (vote s c pid support).2 = 0) ∧
    (∀ w, s.wallet = some w → c.isProposalActive pid = .ok false →
      vote s c pid support =
        (.error (notActiveMsg pid), [.read "isProposalActive"]) ∧
      writeCount (vote s c pid support).2 = 0) ∧
    (∀ w, s.wallet = some w → c.isProposalActive pid = .ok true →
      c.hasUserVoted pid w.address = .ok true →
      vote s c pid support =
        (.error (alreadyVotedMsg pid),
         [.read "isProposalActive", .read "hasUserVoted"]) ∧
      writeCount (vote s c pid support).2 = 0) ∧
    (∀ w, s.wallet = some w → c.isProposalActive pid = .ok true →
      c.hasUserVoted pid w.address = .ok false →
      c.getVotingPower w.address = .ok 0 →
      vote s c pid support =
        (.error noPowerMsg,
         [.read "isProposalActive", .read "hasUserVoted", .read "getVotingPower"]) ∧
      writeCount (vote s c pid support).2 = 0) ∧
    (noKeyMsg ≠ notActiveMsg pid ∧ noKeyMsg ≠ alreadyVotedMsg pid ∧
     noKeyMsg ≠ noPowerMsg ∧ notActiveMsg pid ≠ alreadyVotedMsg pid ∧
     notActiveMsg pid ≠ noPowerMsg ∧ alreadyVotedMsg pid ≠ noPowerMsg) := by
  refine ⟨fun h => ?_, fun w hw ha => ?_, fun w hw ha hv => ?_,
          fun w hw ha hv hp => ?_, ?_, ?_, ?_, ?_, ?_, ?_⟩
  · have he : vote s c pid support = (.error noKeyMsg, []) := by
      simp [vote, h]
    exact ⟨he, by rw [he]; rfl⟩
  · have he : vote s c pid support =
        (.error (notActiveMsg pid), [.read "isProposalActive"]) := by
      simp [vote, hw, ha]
    exact ⟨he, by rw [he]; rfl⟩
  · have he : vote s c pid support =
        (.error (alreadyVotedMsg pid),
         [.read "isProposalActive", .read "hasUserVoted"]) := by
      simp [vote, hw, ha, hv]
    exact ⟨he, by rw [he]; rfl⟩
  · have he : vote s c pid support =
        (.error noPowerMsg,
         [.read "isProposalActive", .read "hasUserVoted", .read "getVotingPower"]) := by
      simp [vote, hw, ha, hv, hp]
    exact ⟨he, by rw [he]; rfl⟩
  · exact strNeOfHead (by rw [notActiveMsgHead]; decide)
  · exact strNeOfHead (by rw [alreadyVotedMsgHead]; decide)
  · decide
  · exact strNeOfHead (by rw [notActiveMsgHead, alreadyVotedMsgHead]; decide)
  · exact strNeOfHead (by rw [notActiveMsgHead]; decide)
  · exact strNeOfHead (by rw [alreadyVotedMsgHead]; decide)

/-- Witness for C2: each of the four guard failures observed on a concrete
chain, with the traces showing that no later read and no write was
issued. -/
theorem c2_voteGuardOrder_witness :
    vote skillNoKey baseChain 1 true = (.error noKeyMsg, []) ∧
    vote testSkill notActiveChain 1 true =
      (.error (notActiveMsg 1), [.read "isProposalActive"]) ∧
    vote testSkill votedChain 1 true =
      (.error (alreadyVotedMsg 1), [.read "isProposalActive", .read "hasUserVoted"]) ∧
    vote testSkill zeroPowerChain 1 true =
      (.error noPowerMsg,
       [.read "isProposalActive", .read "hasUserVoted", .read "getVotingPower"]) :=
  ⟨((c2_voteGuardOrder skillNoKey baseChain 1 true).1 rfl).1,
   ((c2_voteGuardOrder testSkill notActiveChain 1 true).2.1
      { address := "0xagent" } rfl rfl).1,
   ((c2_voteGuardOrder testSkill votedChain 1 true).2.2.1
      { address := "0xagent" } rfl rfl rfl).1,
   ((c2_voteGuardOrder testSkill zeroPowerChain 1 true).2.2.2.1
      { address := "0xagent" } rfl rfl rfl rfl).1⟩

/-- Claim C4: with the earlier guards passing, voting power exactly zero
fails with the insufficient-power error before any transaction (zero write
calls), while every strictly positive power passes the guard and proceeds to
submit the vote transaction (the trace ends in the write call). -/
theorem c4_powerBoundary (s : Skill) (c : Chain) (pid : Nat) (support : Bool)
    (w : Wallet) (hw : s.wallet = some w)
    (ha : c.isProposalActive pid = .ok true)
    (hv : c.hasUserVoted pid w.address = .ok false) :
    (c.getVotingPower w.address = .ok 0 →
      vote s c pid support =
        (.error noPowerMsg,
         [.read "isProposalActive", .read "hasUserVoted", .read "getVotingPower"]) ∧
      writeCount (vote s c pid support).2 = 0) ∧
    (∀ p, 0 < p → c.getVotingPower w.address = .ok p →
      (vote s c pid support).2 =
        [.read "isProposalActive", .read "hasUserVoted", .read "getVotingPower",
         .write "vote" [toString pid, toString support]] ∧
      writeCount (vote s c pid support).2 = 1) := by
  constructor
  · intro hp
    have he : vote s c pid support =
        (.error noPowerMsg,
         [.read "isProposalActive", .read "hasUserVoted", .read "getVotingPower"]) := by
      simp [vote, hw, ha, hv, hp]
    exact ⟨he, by rw [he]; rfl⟩
  · intro p hpos hp
    have hne : p ≠ 0 := Nat.pos_iff_ne_zero.mp hpos
    have ht : (vote s c pid support).2 =
        [.read "isProposalActive", .read "hasUserVoted", .read "getVotingPower",
         .write "vote" [toString pid, toString support]] := by
      cases htx : c.voteTx pid support <;>
        simp [vote, hw, ha, hv, hp, hne, htx]
    exact ⟨ht, by rw [ht]; rfl⟩

/-- Chain variant on which the signer's voting power is 7. -/
def sevenPowerChain : Chain :=
  { baseChain with getVotingPower := fun _ => .ok 7 }

/-- Witness for C4: zero power stops before submission on one chain, power 7
submits on another. -/
theorem c4_powerBoundary_witness :
    (vote testSkill zeroPowerChain 2 true =
      (.error noPowerMsg,
       [.read "isProposalActive", .read "hasUserVoted", .read "getVotingPower"]) ∧
     writeCount (vote testSkill zeroPowerChain 2 true).2 = 0) ∧
    ((vote testSkill sevenPowerChain 2 true).2 =
      [.read "isProposalActive", .read "hasUserVoted", .read "getVotingPower",
       .write "vote" [toString 2, toString true]] ∧
     writeCount (vote testSkill sevenPowerChain 2 true).2 = 1) :=
  ⟨(c4_powerBoundary testSkill zeroPowerChain 2 true
      { address := "0xagent" } rfl rfl rfl).1 rfl,
   (c4_powerBoundary testSkill sevenPowerChain 2 true
      { address := "0xagent" } rfl rfl rfl).2 7 (by decide) rfl⟩

/-- Claim C6: with no signing credential every write operation fails with a
descriptive configuration error and issues no remote call at all, while the
reads are unaffected: `getTreasury` ignores the wallet entirely, and the
remaining read operations (`getProposals`, `getVotingPowerOp`, `hasVotedOp`)
take no credential among their inputs. -/
theorem c6_writesRequireKey (s : Skill) (c : Chain) (h : s.wallet = none) :
    (∀ pid support, vote s c pid support = (.error noKeyMsg, [])) ∧
    (∀ amount, (donateUSDC s c amount).2 = []) ∧
    (s.network = "testnet" →
      ∀ amount, donateUSDC s c amount = (.error "No private key configured", [])) ∧
    (∀ t d, createProposal s c t d = (.error "No private key configured", [])) ∧
    (∀ w2, getTreasury { s with wallet := w2 } c = getTreasury s c) := by
  refine ⟨fun pid support => by simp [vote, h], fun amount => ?_,
          fun hn amount => ?_, fun t d => by simp [createProposal, h], fun w2 => ?_⟩
  · by_cases hn : s.network = "testnet" <;> simp [donateUSDC, h, hn]
  · simp [donateUSDC, h, hn]
  · cases s
    rfl

/-- Witness for C6 on the credential-free testnet client. -/
theorem c6_writesRequireKey_witness :
    vote skillNoKey baseChain 2 false = (.error noKeyMsg, []) ∧
    donateUSDC skillNoKey baseChain "5" = (.error "No private key configured", []) ∧
    createProposal skillNoKey baseChain "T" "D" =
      (.error "No private key configured", []) ∧
    getTreasury { skillNoKey with wallet := some { address := "0xother" } } baseChain =
      getTreasury skillNoKey baseChain :=
  ⟨(c6_writesRequireKey skillNoKey baseChain rfl).1 2 false,
   (c6_writesRequireKey skillNoKey baseChain rfl).2.2.1 rfl "5",
   (c6_writesRequireKey skillNoKey baseChain rfl).2.2.2.1 "T" "D",
   (c6_writesRequireKey skillNoKey baseChain rfl).2.2.2.2
     (some { address := "0xother" })⟩

/-- Claim C7: when the secondary stable-asset read fails, `getTreasury`
captures the failure as a field-level error object inside the secondary
field and still returns the primary token fields; on a configuration without
the secondary asset the field is omitted entirely (it is `none`, not an
error placeholder). -/
theorem c7_treasuryIsolation (s : Skill) (c : Chain) (sym : String)
    (dec bal : Nat)
    (hs : c.symbolOf s.contracts.token = .ok sym)
    (hd : c.decimalsOf s.contracts.token = .ok dec)
    (hb : c.balanceOf s.contracts.token s.contracts.splitter = .ok bal) :
    (∀ a e, s.network = "testnet" → s.contracts.usdc = some a →
      c.balanceOf a s.contracts.governance = .error e →
      getTreasury s c =
        .ok { token := { address := s.contracts.token, symbol := sym
                         splitterBalance := formatUnits bal dec }
              usdc := some (UsdcInfo.failure e) }) ∧
    (s.contracts.usdc = none →
      getTreasury s c =
        .ok { token := { address := s.contracts.token, symbol := sym
                         splitterBalance := formatUnits bal dec }
              usdc := none }) := by
  constructor
  · intro a e hn ha hu
    simp [getTreasury, hs, hd, hb, hn, ha, hu]
  · intro ha
    by_cases hn : s.network = "testnet" <;>
      simp [getTreasury, hs, hd, hb, hn, ha]

/-- Chain variant whose balance reads fail exactly for the account that is
the governance contract — the account the secondary stable-asset read
queries — while the splitter account still answers. -/
def flakyUsdcChain : Chain :=
  { baseChain with
    balanceOf := fun _ account =>
      if account = testnetConfig.contracts.governance then
        .error "usdc read failed"
      else .ok 1234 }

/-- Client configuration without a secondary stable asset. -/
def skillNoUsdc : Skill :=
  { testSkill with contracts := { testSkill.contracts with usdc := none } }

/-- Witness for C7: the flaky chain yields a field-level error object with
intact primary fields; the asset-free configuration omits the field. -/
theorem c7_treasuryIsolation_witness :
    getTreasury testSkill flakyUsdcChain =
      .ok { token := { address := testnetConfig.contracts.token, symbol := "USDC"
                       splitterBalance := formatUnits 1234 6 }
            usdc := some (UsdcInfo.failure "usdc read failed") } ∧
    getTreasury skillNoUsdc baseChain =
      .ok { token := { address := testnetConfig.contracts.token, symbol := "USDC"
                       splitterBalance := formatUnits 1234 6 }
            usdc := none } :=
  ⟨(c7_treasuryIsolation testSkill flakyUsdcChain "USDC" 6 1234 rfl rfl
      rfl).1 (testnetConfig.contracts.token) "usdc read failed"
      rfl rfl rfl,
   (c7_treasuryIsolation skillNoUsdc baseChain "USDC" 6 1234 rfl rfl rfl).2 rfl⟩

/-- Claim C10: `getTreasury` formats the primary splitter balance at the
decimals fetched from the token contract, but formats the secondary
stable-asset balance at the hard-coded precision 6 regardless of that
asset's actual on-chain decimals (readable via its `decimals()` method,
which `getTreasury` never calls — `udec` is arbitrary and absent from the
result), so whenever the actual decimals differ from 6 the two balance
fields are scaled by different rules, as the two sample renderings of the
same raw value at precisions 6 and 18 illustrate. -/
theorem c10_mixedScaling (s : Skill) (c : Chain) (sym : String)
    (dec bal : Nat) (a : String) (ubal udec : Nat)
    (hs : c.symbolOf s.contracts.token = .ok sym)
    (hd : c.decimalsOf s.contracts.token = .ok dec)
    (hb : c.balanceOf s.contracts.token s.contracts.splitter = .ok bal)
    (hn : s.network = "testnet") (ha : s.contracts.usdc = some a)
    (hu : c.balanceOf a s.contracts.governance = .ok ubal)
    (_hud : c.decimalsOf a = .ok udec) :
    getTreasury s c =
      .ok { token := { address := s.contracts.token, symbol := sym
                       splitterBalance := formatUnits bal dec }
            usdc := some (UsdcInfo.balance a (formatUnits ubal 6)) } ∧
    formatUnits 1000000 6 = "1.0" ∧ formatUnits 1000000 18 = "0.000000000001" := by
  refine ⟨?_, by decide, by decide⟩
  simp [getTreasury, hs, hd, hb, hn, ha, hu]

/-- Chain variant describing an 18-decimal stable asset: `decimalsOf`
answers 18 for every token contract, balances answer 1000000. -/
def deepDecimalsChain : Chain :=
  { baseChain with
    decimalsOf := fun _ => .ok 18
    balanceOf := fun _ _ => .ok 1000000 }

/-- Witness for C10 on an 18-decimal secondary asset: the secondary field is
still formatted at precision 6. -/
theorem c10_mixedScaling_witness :
    getTreasury testSkill deepDecimalsChain =
      .ok { token := { address := testnetConfig.contracts.token, symbol := "USDC"
                       splitterBalance := formatUnits 1000000 18 }
            usdc := some (UsdcInfo.balance (testnetConfig.contracts.token)
                            (formatUnits 1000000 6)) } ∧
    formatUnits 1000000 6 = "1.0" ∧ formatUnits 1000000 18 = "0.000000000001" :=
  c10_mixedScaling testSkill deepDecimalsChain "USDC" 18 1000000
    (testnetConfig.contracts.token) 1000000 18 rfl rfl rfl rfl rfl rfl rfl

/-- The `getProposals` loop from index `i` over `n` ids equals the filter of
the ascending interval `[i, i+n)`: successes collected in fetch order,
failures logged with their ids in fetch order. -/
theorem getProposalsFromSpec (c : Chain) :
    ∀ n i, getProposalsFrom c i n =
      ((List.range' i n).filterMap fun j => (fetchProposal c j).toOption,
       (List.range' i n).filterMap fun j =>
         match fetchProposal c j with
         | .ok _ => none
         | .error e => some (j, e)) := by
  intro n
  induction n with
  | zero => intro i; rfl
  | succ n ih =>
    intro i
    rw [List.range'_succ]
    unfold getProposalsFrom
    cases h : fetchProposal c i with
    | ok v => simp [h, ih (i + 1), Except.toOption]
    | error e => simp [h, ih (i + 1), Except.toOption]

/-- Every loop run splits the interval: result length plus error-log length
equals the number of ids attempted. -/
theorem getProposalsFromLength (c : Chain) :
    ∀ n i, ((getProposalsFrom c i n).1).length + ((getProposalsFrom c i n).2).length = n := by
  intro n
  induction n with
  | zero => intro i; rfl
  | succ n ih =>
    intro i
    have hrest := ih (i + 1)
    unfold getProposalsFrom
    cases h : fetchProposal c i with
    | ok v => simp [h]; omega
    | error e => simp [h]; omega

/-- Mapping an index-recovering projection over a filtered ascending list of
naturals stays strictly ascending. -/
theorem pairwiseLtMapFilterMap {β : Type} (g : β → Nat) (f : Nat → Option β)
    (hf : ∀ j v, f j = some v → g v = j) :
    ∀ l : List Nat, l.Pairwise (· < ·) → ((l.filterMap f).map g).Pairwise (· < ·) := by
  intro l hl
  induction l with
  | nil => simp
  | cons a l ih =>
    rw [List.pairwise_cons] at hl
    obtain ⟨hlt, hl2⟩ := hl
    cases h : f a with
    | none => simpa [List.filterMap_cons, h] using ih hl2
    | some v =>
      rw [List.filterMap_cons_some h, List.map_cons, List.pairwise_cons]
      refine ⟨fun y hy => ?_, ih hl2⟩
      rw [List.mem_map] at hy
      obtain ⟨u, hu, rfl⟩ := hy
      rw [List.mem_filterMap] at hu
      obtain ⟨j, hj, hfj⟩ := hu
      rw [hf a v h, hf j u hfj]
      exact hlt j hj

/-- A successful loop-body fetch carries the remote record's id: under the
contract's documented contiguity assumption that is the fetch index. -/
theorem fetchProposalOkId (c : Chain) (i : Nat) (v : ProposalView)
    (h : fetchProposal c i = .ok v)
    (hid : ∀ j p, c.getProposal j = .ok p → p.id = j) : v.id = i := by
  unfold fetchProposal at h
  cases hp : c.getProposal i with
  | error e => rw [hp] at h; cases h
  | ok p =>
    rw [hp] at h
    cases hr : c.getProposalResult i with
    | error e => rw [hr] at h; cases h
    | ok r =>
      rw [hr] at h
      cases hA : c.isProposalActive i with
      | error e => rw [hA] at h; cases h
      | ok b =>
        rw [hA] at h
        injection h with h2
        rw [← h2]
        exact hid i p hp

/-- Claim C3: `getProposals` is best-effort — for every count and every set
of failing ids, the call returns exactly the successfully fetched proposals
in ascending fetch order, logs one error per failing id, result length plus
failure count equals the proposal count, and (under the contract's
contiguous-id assumption) the returned ids are strictly ascending; no single
failure aborts the enumeration. -/
theorem c3_partialFailure (c : Chain) :
    getProposals c =
      (List.range' 1 c.proposalCount).filterMap
        (fun j => (fetchProposal c j).toOption) ∧
    getProposalsErrors c =
      (List.range' 1 c.proposalCount).filterMap
        (fun j => match fetchProposal c j with
          | .ok _ => none
          | .error e => some (j, e)) ∧
    (getProposals c).length + (getProposalsErrors c).length = c.proposalCount ∧
    ((∀ j p, c.getProposal j = .ok p → p.id = j) →
      ((getProposals c).map fun v => v.id).Pairwise (· < ·)) := by
  refine ⟨?_, ?_, getProposalsFromLength c c.proposalCount 1, ?_⟩
  · unfold getProposals
    rw [getProposalsFromSpec]
  · unfold getProposalsErrors
    rw [getProposalsFromSpec]
  · intro hid
    unfold getProposals
    rw [getProposalsFromSpec]
    refine pairwiseLtMapFilterMap _ _ (fun j v hv => ?_) _
      (List.pairwise_lt_range' 1 c.proposalCount 1 Nat.one_pos)
    cases hf : fetchProposal c j with
    | error e => rw [hf] at hv; cases hv
    | ok u =>
      rw [hf] at hv
      injection hv with hv2
      rw [← hv2]
      exact fetchProposalOkId c j u hf hid

/-- Chain with five proposals on which exactly the fetch of id 3 fails. -/
def flaky3Chain : Chain :=
  { baseChain with
    proposalCount := 5
    getProposal := fun i =>
      if i = 3 then .error "transient" else .ok (okProposal i) }

/-- Witness for C3: with count 5 and id 3 failing, the four other proposals
come back in ascending id order and the single failure is logged for id
3. -/
theorem c3_partialFailure_witness :
    (getProposals flaky3Chain).length + (getProposalsErrors flaky3Chain).length = 5 ∧
    (getProposals flaky3Chain).map (fun v => v.id) = [1, 2, 4, 5] ∧
    getProposalsErrors flaky3Chain = [(3, "transient")] ∧
    ((getProposals flaky3Chain).map fun v => v.id).Pairwise (· < ·) := by
  refine ⟨(c3_partialFailure flaky3Chain).2.2.1, by decide, by decide,
          (c3_partialFailure flaky3Chain).2.2.2 ?_⟩
  intro j p hp
  simp only [flaky3Chain] at hp
  by_cases hj : j = 3
  · rw [if_pos hj] at hp
    cases hp
  · rw [if_neg hj] at hp
    injection hp with hp2
    rw [← hp2]
    rfl

/-- Witness for the amended C5 on the concrete testnet client. -/
theorem c5_conversion_witness :
    parseUnits "10" 6 = some 10000000 ∧
    (donateUSDC testSkill baseChain "10").2 =
      [RpcCall.write "transfer" [testSkill.contracts.governance, "10000000"]] ∧
    formatUnits 10000000 6 = "10.0" :=
  c5_conversion testSkill baseChain { address := "0xagent" }
    "0x036CbD53842c5426634e7929541eC2318f3dCF7e" rfl rfl rfl
